import Mathlib

/-!
Shallow embedding of `engine.py` (an Elasticsearch query-body builder).

Python values that appear in query bodies are modelled by `Val`
(ints, strings, lists, and insertion-ordered dicts with string keys —
every dict in the program has string keys).  Python exceptions are
modelled by `PyErr`, and each method of the source returns
`Except PyErr Val`.
-/

/-- JSON-like Python values: ints, strings, lists, insertion-ordered dicts. -/
inductive Val where
  | vint : Int → Val
  | vstr : String → Val
  | vlist : List Val → Val
  | vdict : List (String × Val) → Val

/-- The Python exceptions the program can raise. -/
inductive PyErr where
  | assertionError : String → PyErr
  | typeError : String → PyErr
  | attributeError : String → PyErr
  | recursionError : PyErr
deriving DecidableEq

/-- `d[k]` lookup on an insertion-ordered dict (first matching key). -/
def dget : List (String × Val) → String → Option Val
  | [], _ => none
  | p :: d, k => if p.1 = k then some p.2 else dget d k

/-- Does the dict contain key `k`? -/
def containsKey : List (String × Val) → String → Bool
  | [], _ => false
  | p :: d, k => if p.1 = k then true else containsKey d k

/-- Overwrite the value at key `k` in place (position preserved). -/
def setKey : List (String × Val) → String → Val → List (String × Val)
  | [], _, _ => []
  | p :: d, k, v => if p.1 = k then (k, v) :: setKey d k v else p :: setKey d k v

/-- Python dict item assignment `d[k] = v`: overwrite in place if the key
exists, otherwise append at the end (insertion order). -/
def dinsert (d : List (String × Val)) (k : String) (v : Val) : List (String × Val) :=
  if containsKey d k then setKey d k v else d ++ [(k, v)]

/-- Python `d.update(e)`: assign every entry of `e` into `d`, left to right. -/
def dupdate (d e : List (String × Val)) : List (String × Val) :=
  e.foldl (fun acc p => dinsert acc p.1 p.2) d

/-- Build a dict from key/value pairs, left to right (dict comprehension /
dict literal semantics: a later duplicate key overwrites the earlier one). -/
def dfromPairs (l : List (String × Val)) : List (String × Val) :=
  dupdate [] l

/-- Remove every entry with key `k` (used for keyword-argument binding:
a keyword consumed by a named parameter does not reach `**kwargs`). -/
def dremove (d : List (String × Val)) (k : String) : List (String × Val) :=
  d.filter (fun p => ¬ (p.1 = k))

mutual

/-- Python `repr` of a value (used by `str.format` in assertion messages). -/
def pyRepr : Val → String
  | .vint n => toString n
  | .vstr s => "\x27" ++ s ++ "\x27"
  | .vlist xs => "[" ++ pyReprSeq xs ++ "]"
  | .vdict d => "\x7b" ++ pyReprEntries d ++ "\x7d"

/-- Comma-separated reprs of the elements of a list. -/
def pyReprSeq : List Val → String
  | [] => ""
  | [x] => pyRepr x
  | x :: y :: xs => pyRepr x ++ ", " ++ pyReprSeq (y :: xs)

/-- Comma-separated `'key': value` reprs of the entries of a dict. -/
def pyReprEntries : List (String × Val) → String
  | [] => ""
  | [(k, v)] => "\x27" ++ k ++ "\x27: " ++ pyRepr v
  | (k, v) :: q :: xs => "\x27" ++ k ++ "\x27: " ++ pyRepr v ++ ", " ++ pyReprEntries (q :: xs)

end

/-- Python `str` of a value (strings print without quotes, as in `format`). -/
def pyStr : Val → String
  | .vstr s => s
  | v => pyRepr v

/-- Python truthiness: `0`, `""`, `[]` and the empty dict are falsy. -/
def truthy : Val → Bool
  | .vint n => if n = 0 then false else true
  | .vstr s => if s = "" then false else true
  | .vlist xs => !xs.isEmpty
  | .vdict d => !d.isEmpty

/-- `v.items()` — iterating a value as a mapping; anything but a dict
raises (Python: `AttributeError` for a missing `items`). -/
def itemsOf : Val → Except PyErr (List (String × Val))
  | .vdict d => .ok d
  | v => .error (.attributeError ("object has no attribute items: " ++ pyRepr v))

/-- `d.update(v)` requires `v` to be a mapping; anything else raises. -/
def asMapping : Val → Except PyErr (List (String × Val))
  | .vdict d => .ok d
  | v => .error (.typeError ("update argument is not a mapping: " ++ pyRepr v))

/-!
The builder classes.  Each Python `get_query(self, index, mapping, ...)`
method is embedded as a function of the same name on the already-bound
parameters; the keyword-argument binding performed at each call site is
modelled separately below (`bind2`, `bind3`, `bindMultiMatch`).
-/

/-- The constructor classes `QueryConstructor.construct` can return.
`FilterQueryConstructor` is deliberately absent: the dispatch chain in
the source never selects it. -/
inductive BuilderTag where
  | tTerm
  | tMatch
  | tMultiMatch
  | tNested
  | tMust
  | tShould
  | tBool
deriving DecidableEq

/-- `QueryConstructor.construct`: the chained conditional of lines 7-21.
`"filter"` does not appear in the chain, so it falls through to the
`assert` like any unsupported tag. -/
def QueryConstructor.construct (type : String) : Except PyErr BuilderTag :=
  if type = "term" then .ok .tTerm
  else if type = "match" then .ok .tMatch
  else if type = "multi_match" then .ok .tMultiMatch
  else if type = "nested" then .ok .tNested
  else if type = "must" then .ok .tMust
  else if type = "should" then .ok .tShould
  else if type = "bool" then .ok .tBool
  else .error (.assertionError ("Unsupported type received as argument: " ++ type))

/-- `TermQueryConstructor.get_query(self, index, mapping, **values)`. -/
def TermQueryConstructor.get_query (index mapping : Val)
    (values : List (String × Val)) : Except PyErr Val :=
  if values.isEmpty then
    .error (.assertionError ("Invalid values received as argument: " ++ pyRepr (.vdict values)))
  else
    let query_params := (dget values "query_params").getD (.vdict values)
    let additional_query_params := (dget values "additional_query_params").getD (.vdict [])
    match itemsOf query_params with
    | .error e => .error e
    | .ok qp =>
      match asMapping additional_query_params with
      | .error e => .error e
      | .ok aqp => .ok (.vdict [("term", .vdict (dupdate (dfromPairs qp) aqp))])

/-- `MatchQueryConstructor.get_query(self, index, mapping, **values)`. -/
def MatchQueryConstructor.get_query (index mapping : Val)
    (values : List (String × Val)) : Except PyErr Val :=
  if values.isEmpty then
    .error (.assertionError ("Invalid values received as argument: " ++ pyRepr (.vdict values)))
  else
    let query_params := (dget values "query_params").getD (.vdict values)
    let additional_query_params := (dget values "additional_query_params").getD (.vdict [])
    match itemsOf query_params with
    | .error e => .error e
    | .ok qp =>
      match asMapping additional_query_params with
      | .error e => .error e
      | .ok aqp => .ok (.vdict [("match", .vdict (dupdate (dfromPairs qp) aqp))])

/-- `MultiMatchQueryConstructor.get_query(self, index, mapping, query, fields,
q_type="cross_fields", **kwargs)`. -/
def MultiMatchQueryConstructor.get_query (index mapping query fields q_type : Val)
    (kwargs : List (String × Val)) : Except PyErr Val :=
  if truthy fields = false then
    .error (.assertionError ("Invalid fields received as argument: " ++ pyRepr fields))
  else
    let additional_query_params := (dget kwargs "additional_query_params").getD (.vdict [])
    match asMapping additional_query_params with
    | .error e => .error e
    | .ok aqp =>
      .ok (.vdict [("multi_match",
        .vdict (dupdate [("query", query), ("fields", fields), ("type", q_type)] aqp))])

/-- `NestedQueryConstructor.get_query(self, index, mapping, path, **values)`.
Each field of the query parameters is formatted as `"{}.{}".format(path, field)`. -/
def NestedQueryConstructor.get_query (index mapping path : Val)
    (values : List (String × Val)) : Except PyErr Val :=
  if truthy path = false then
    .error (.assertionError ("Invalid path received: " ++ pyRepr path))
  else if values.isEmpty then
    .error (.assertionError ("Invalid values received as argument: " ++ pyRepr (.vdict values)))
  else
    let query_params := (dget values "query_params").getD (.vdict values)
    let additional_query_params := (dget values "additional_query_params").getD (.vdict [])
    match itemsOf query_params with
    | .error e => .error e
    | .ok qp =>
      match asMapping additional_query_params with
      | .error e => .error e
      | .ok aqp =>
        .ok (.vdict [("nested", .vdict (dupdate
          [("path", path),
           ("query", .vdict (dfromPairs (qp.map (fun fv => (pyStr path ++ "." ++ fv.1, fv.2)))))]
          aqp))])

/-- The `for query_type, query_type_config in query_types.items()` loop of
`ConditionalQueryMixin.get_query`: each iteration runs `sub` on the entry
and appends the result to the accumulated `body` list. -/
def ConditionalQueryMixin.loop (sub : String → Val → Except PyErr Val) :
    List (String × Val) → List Val → Except PyErr (List Val)
  | [], body => .ok body
  | tc :: rest, body =>
    match sub tc.1 tc.2 with
    | .error e => .error e
    | .ok q => ConditionalQueryMixin.loop sub rest (body ++ [q])

/-- `ConditionalQueryMixin.get_query(self, index, mapping, **kwargs)`.
`sub` is the recursive step of the loop body:
`QueryConstructor.construct(query_type)` followed by
`constructor.get_query(query_type_config)` (supplied by `callBuilder`). -/
def ConditionalQueryMixin.get_query (sub : String → Val → Except PyErr Val)
    (index mapping : Val) (kwargs : List (String × Val)) : Except PyErr Val :=
  if kwargs.isEmpty then
    .error (.assertionError ("Invalid kwargs received: " ++ pyRepr (.vdict kwargs)))
  else
    match dget kwargs "query_types" with
    | none => .error (.assertionError "Invalid query_types received as argument: None")
    | some qt =>
      if truthy qt = false then
        .error (.assertionError ("Invalid query_types received as argument: " ++ pyRepr qt))
      else
        match itemsOf qt with
        | .error e => .error e
        | .ok items =>
          match ConditionalQueryMixin.loop sub items [] with
          | .error e => .error e
          | .ok body => .ok (.vlist body)

/-- `MustQueryConstructor.get_query`: the mixin body wrapped in `"must"`. -/
def MustQueryConstructor.get_query (sub : String → Val → Except PyErr Val)
    (index mapping : Val) (kwargs : List (String × Val)) : Except PyErr Val :=
  match ConditionalQueryMixin.get_query sub index mapping kwargs with
  | .error e => .error e
  | .ok body => .ok (.vdict [("must", body)])

/-- `ShouldQueryConstructor.get_query`: the mixin body wrapped in `"should"`. -/
def ShouldQueryConstructor.get_query (sub : String → Val → Except PyErr Val)
    (index mapping : Val) (kwargs : List (String × Val)) : Except PyErr Val :=
  match ConditionalQueryMixin.get_query sub index mapping kwargs with
  | .error e => .error e
  | .ok body => .ok (.vdict [("should", body)])

/-- `FilterQueryConstructor.get_query`: the mixin body wrapped in `"filter"`.
The class exists in the source but `QueryConstructor.construct` never
dispatches to it. -/
def FilterQueryConstructor.get_query (sub : String → Val → Except PyErr Val)
    (index mapping : Val) (kwargs : List (String × Val)) : Except PyErr Val :=
  match ConditionalQueryMixin.get_query sub index mapping kwargs with
  | .error e => .error e
  | .ok body => .ok (.vdict [("filter", body)])

/-- `BoolQueryConstructor.get_query` evaluates
`super(FilterQueryConstructor, self)` with `self` a `BoolQueryConstructor`,
which is not a subclass of `FilterQueryConstructor`, so the call raises
`TypeError` before any body is built. -/
def BoolQueryConstructor.get_query (sub : String → Val → Except PyErr Val)
    (index mapping : Val) (kwargs : List (String × Val)) : Except PyErr Val :=
  .error (.typeError "super(type, obj): obj must be an instance or subtype of type")

/-!
Keyword-argument binding.  A Python call `obj.get_query(*pos, **kw)` binds
the named parameters `(index, mapping, ...)` from the positional arguments
first and then from the keywords; a keyword for an already-bound parameter
raises `TypeError`, as does a missing required parameter.  The leftover
keywords become the `**kwargs` dict.  Both call shapes that occur in the
source are covered: two positionals (from `ElasticSearchQueryEngine._query`)
and a single positional (from the `ConditionalQueryMixin` loop).
-/

/-- Bind `(index, mapping, **rest)` from positional and keyword arguments. -/
def bind2 (pos : List Val) (kw : List (String × Val)) :
    Except PyErr (Val × Val × List (String × Val)) :=
  match pos with
  | [i, m] =>
    if containsKey kw "index" then
      .error (.typeError "get_query() got multiple values for argument: index")
    else if containsKey kw "mapping" then
      .error (.typeError "get_query() got multiple values for argument: mapping")
    else .ok (i, m, kw)
  | [i] =>
    if containsKey kw "index" then
      .error (.typeError "get_query() got multiple values for argument: index")
    else
      match dget kw "mapping" with
      | some m => .ok (i, m, dremove kw "mapping")
      | none => .error (.typeError "get_query() missing 1 required positional argument: mapping")
  | [] =>
    (match dget kw "index", dget kw "mapping" with
     | some i, some m => .ok (i, m, dremove (dremove kw "index") "mapping")
     | _, _ => .error (.typeError "get_query() missing required positional arguments"))
  | _ => .error (.typeError "get_query() takes 3 positional arguments but more were given")

/-- Bind `(index, mapping, path, **rest)`; `path` may arrive as a third
positional argument or as a keyword. -/
def bind3 (pos : List Val) (kw : List (String × Val)) :
    Except PyErr (Val × Val × Val × List (String × Val)) :=
  match pos with
  | [i, m, p] =>
    if containsKey kw "index" then
      .error (.typeError "get_query() got multiple values for argument: index")
    else if containsKey kw "mapping" then
      .error (.typeError "get_query() got multiple values for argument: mapping")
    else if containsKey kw "path" then
      .error (.typeError "get_query() got multiple values for argument: path")
    else .ok (i, m, p, kw)
  | _ :: _ :: _ :: _ =>
    .error (.typeError "get_query() takes 4 positional arguments but more were given")
  | _ =>
    match bind2 pos kw with
    | .error e => .error e
    | .ok (i, m, rest) =>
      match dget rest "path" with
      | some p => .ok (i, m, p, dremove rest "path")
      | none => .error (.typeError "get_query() missing 1 required positional argument: path")

/-- Bind `(index, mapping, query, fields, q_type="cross_fields", **rest)`.
In the source, `query`, `fields` and `q_type` only ever arrive as keywords
(via `ElasticSearchQueryEngine._query`) or not at all (via the
`ConditionalQueryMixin` loop, which passes a single positional argument). -/
def bindMultiMatch (pos : List Val) (kw : List (String × Val)) :
    Except PyErr (Val × Val × Val × Val × Val × List (String × Val)) :=
  match bind2 pos kw with
  | .error e => .error e
  | .ok (i, m, rest) =>
    match dget rest "query" with
    | none => .error (.typeError "get_query() missing 1 required positional argument: query")
    | some q =>
      match dget rest "fields" with
      | none => .error (.typeError "get_query() missing 1 required positional argument: fields")
      | some f =>
        let rest2 := dremove (dremove rest "query") "fields"
        let t := (dget rest2 "q_type").getD (.vstr "cross_fields")
        .ok (i, m, q, f, t, dremove rest2 "q_type")

/-- A bounded-depth call `constructor.get_query(*pos, **kw)` on the builder
instance selected by `tag`.  The fuel models Python's recursion limit; the
recursive `sub` closure is the loop body of `ConditionalQueryMixin`:
`QueryConstructor.construct(query_type)` followed by
`constructor.get_query(query_type_config)` — a single positional argument. -/
def callBuilder : Nat → BuilderTag → List Val → List (String × Val) → Except PyErr Val
  | 0, _, _, _ => .error .recursionError
  | n + 1, tag, pos, kw =>
    let sub : String → Val → Except PyErr Val := fun ty cfg =>
      match QueryConstructor.construct ty with
      | .error e => .error e
      | .ok t => callBuilder n t [cfg] []
    match tag with
    | .tTerm =>
      match bind2 pos kw with
      | .error e => .error e
      | .ok (i, m, values) => TermQueryConstructor.get_query i m values
    | .tMatch =>
      match bind2 pos kw with
      | .error e => .error e
      | .ok (i, m, values) => MatchQueryConstructor.get_query i m values
    | .tMultiMatch =>
      match bindMultiMatch pos kw with
      | .error e => .error e
      | .ok (i, m, q, f, t, rest) => MultiMatchQueryConstructor.get_query i m q f t rest
    | .tNested =>
      match bind3 pos kw with
      | .error e => .error e
      | .ok (i, m, p, values) => NestedQueryConstructor.get_query i m p values
    | .tMust =>
      match bind2 pos kw with
      | .error e => .error e
      | .ok (i, m, kwargs) => MustQueryConstructor.get_query sub i m kwargs
    | .tShould =>
      match bind2 pos kw with
      | .error e => .error e
      | .ok (i, m, kwargs) => ShouldQueryConstructor.get_query sub i m kwargs
    | .tBool =>
      match bind2 pos kw with
      | .error e => .error e
      | .ok (i, m, kwargs) => BoolQueryConstructor.get_query sub i m kwargs

/-- `ElasticSearchQueryEngine._query(self, type, index, mapping, **kwargs)`:
construct the builder, build `{"query": <clause>}`, then merge
`kwargs.get("other_params", {})` at the top level. -/
def ElasticSearchQueryEngine._query (fuel : Nat) (type : String) (index mapping : Val)
    (kwargs : List (String × Val)) : Except PyErr Val :=
  match QueryConstructor.construct type with
  | .error e => .error e
  | .ok tag =>
    match callBuilder fuel tag [index, mapping] kwargs with
    | .error e => .error e
    | .ok q =>
      let other_params := (dget kwargs "other_params").getD (.vdict [])
      match asMapping other_params with
      | .error e => .error e
      | .ok op => .ok (.vdict (dupdate [("query", q)] op))

/-- `ElasticSearchQueryEngine.nested(self, index, mapping, path, **values)`:
the request body it sends.  Note that `path` is accepted but not passed on —
the source forwards only `index`, `mapping` and `**values` to `_query`. -/
def ElasticSearchQueryEngine.nested (fuel : Nat) (index mapping path : Val)
    (values : List (String × Val)) : Except PyErr Val :=
  ElasticSearchQueryEngine._query fuel "nested" index mapping values

/-- `ElasticSearchQueryEngine.filter(self, index, mapping, **kwargs)`:
the request body it sends. -/
def ElasticSearchQueryEngine.filter (fuel : Nat) (index mapping : Val)
    (kwargs : List (String × Val)) : Except PyErr Val :=
  ElasticSearchQueryEngine._query fuel "filter" index mapping kwargs

/-- `ElasticSearchQueryEngine.term_query(self, index, mapping, **values)`:
the request body it sends. -/
def ElasticSearchQueryEngine.term_query (fuel : Nat) (index mapping : Val)
    (values : List (String × Val)) : Except PyErr Val :=
  ElasticSearchQueryEngine._query fuel "term" index mapping values

/-!
Small facts about the insertion-ordered dict operations, used to reason
about merges with symbolic dicts.
-/

/-- Overwriting key `j` does not disturb lookups of a different key. -/
lemma dget_setKey_ne (d : List (String × Val)) (j k : String) (v : Val) (h : j ≠ k) :
    dget (setKey d j v) k = dget d k := by
  induction d with
  | nil => rfl
  | cons p d ih =>
    by_cases hp : p.1 = j
    · simp [setKey, hp, dget, h, ih]
    · simp only [setKey, hp, if_false, dget]
      by_cases hk : p.1 = k
      · simp [hk]
      · simp [hk, ih]

/-- Lookup in an appended dict tries the left part first. -/
lemma dget_append_right_none (d e : List (String × Val)) (k : String) :
    dget (d ++ e) k = ((dget d k).orElse (fun _ => dget e k)) := by
  induction d with
  | nil => simp [dget, Option.orElse]
  | cons p d ih =>
    by_cases hk : p.1 = k
    · simp [dget, hk, Option.orElse]
    · simp [dget, hk, ih]

/-- Assigning key `j` does not disturb lookups of a different key. -/
lemma dget_dinsert_ne (d : List (String × Val)) (j k : String) (v : Val) (h : j ≠ k) :
    dget (dinsert d j v) k = dget d k := by
  unfold dinsert
  by_cases hc : containsKey d j
  · simp [hc, dget_setKey_ne d j k v h]
  · rw [if_neg (by simp [hc])]
    rw [dget_append_right_none]
    simp [dget, h]

/-- Splitting a failed lookup on a cons cell. -/
lemma dget_cons_none {p : String × Val} {e : List (String × Val)} {k : String}
    (h : dget (p :: e) k = none) : p.1 ≠ k ∧ dget e k = none := by
  by_cases hk : p.1 = k
  · simp [dget, hk] at h
  · simp [dget, hk] at h
    exact ⟨hk, h⟩

/-- A `d.update(e)` with `k` absent from `e` leaves lookups of `k` unchanged. -/
lemma dget_dupdate_none (d e : List (String × Val)) (k : String) (h : dget e k = none) :
    dget (dupdate d e) k = dget d k := by
  induction e generalizing d with
  | nil => rfl
  | cons p e ih =>
    obtain ⟨hp, he⟩ := dget_cons_none h
    show dget (dupdate (dinsert d p.1 p.2) e) k = dget d k
    rw [ih (dinsert d p.1 p.2) he, dget_dinsert_ne d p.1 k p.2 hp]

/-- A key is absent from a dict iff lookup fails. -/
lemma containsKey_eq_false_iff (d : List (String × Val)) (k : String) :
    containsKey d k = false ↔ dget d k = none := by
  induction d with
  | nil => simp [containsKey, dget]
  | cons p d ih =>
    by_cases hp : p.1 = k <;> simp [containsKey, dget, hp, ih]

/-- Overwriting an existing key makes lookup return the new value. -/
lemma dget_setKey_self (d : List (String × Val)) (k : String) (v : Val)
    (h : containsKey d k = true) : dget (setKey d k v) k = some v := by
  induction d with
  | nil => simp [containsKey] at h
  | cons p d ih =>
    by_cases hp : p.1 = k
    · simp [setKey, hp, dget]
    · simp only [containsKey, hp, if_false] at h
      simp [setKey, hp, dget, ih h]

/-- Assignment makes lookup of the assigned key return the new value. -/
lemma dget_dinsert_self (d : List (String × Val)) (k : String) (v : Val) :
    dget (dinsert d k v) k = some v := by
  unfold dinsert
  by_cases hc : containsKey d k
  · simp [hc, dget_setKey_self d k v hc]
  · rw [if_neg (by simp [hc])]
    rw [dget_append_right_none]
    have hd : dget d k = none := (containsKey_eq_false_iff d k).mp (by simpa using hc)
    simp [hd, dget, Option.orElse]

/-- Lookup of a key that appears nowhere among the keys fails. -/
lemma dget_eq_none_of_not_mem_keys (d : List (String × Val)) (k : String)
    (h : k ∉ d.map Prod.fst) : dget d k = none := by
  induction d with
  | nil => rfl
  | cons p d ih =>
    simp only [List.map_cons, List.mem_cons, not_or] at h
    have hp : p.1 ≠ k := fun hpk => h.1 hpk.symm
    simp [dget, hp, ih h.2]

/-- With duplicate-free keys, updating preserves the looked-up value of a
key present in the update. -/
lemma dget_dupdate_of_mem (d l : List (String × Val)) (k : String) (v : Val)
    (h : dget l k = some v) (hnd : (l.map Prod.fst).Nodup) :
    dget (dupdate d l) k = some v := by
  induction l generalizing d with
  | nil => simp [dget] at h
  | cons p l ih =>
    simp only [List.map_cons, List.nodup_cons] at hnd
    by_cases hp : p.1 = k
    · simp only [dget, hp, if_true] at h
      have hl : dget l k = none :=
        dget_eq_none_of_not_mem_keys l k (by rw [← hp]; exact hnd.1)
      have hv : p.2 = v := Option.some.inj h
      show dget (dupdate (dinsert d p.1 p.2) l) k = some v
      rw [dget_dupdate_none _ _ _ hl, hp, ← hv]
      exact dget_dinsert_self d k p.2
    · simp only [dget, hp, if_false] at h
      exact ih (dinsert d p.1 p.2) h hnd.2

/-- With duplicate-free keys, a dict built from pairs looks up like the pairs. -/
lemma dget_dfromPairs (l : List (String × Val)) (k : String) (v : Val)
    (h : dget l k = some v) (hnd : (l.map Prod.fst).Nodup) :
    dget (dfromPairs l) k = some v :=
  dget_dupdate_of_mem [] l k v h hnd

/-- Claim C1 (failing evaluation): `"filter"` is a supported type tag, yet
`QueryConstructor.construct("filter")` raises the unsupported-type error —
the dispatch chain omits `FilterQueryConstructor` — so the client's own
`filter` method can never succeed either. -/
theorem construct_filter_unsupported :
    QueryConstructor.construct "filter"
      = .error (.assertionError "Unsupported type received as argument: filter") ∧
    ElasticSearchQueryEngine.filter 9 (.vstr "hinglish11") (.vstr "student/_search")
        [("query_types", .vdict [("term", .vdict [("marks", .vint 44)])])]
      = .error (.assertionError "Unsupported type received as argument: filter") :=
  ⟨rfl, rfl⟩

/-- Claim C2 (failing evaluation): the must/should combinators never reach a
sub-clause — the mixin loop calls the sub-builder's `get_query` with the
configuration as its only positional argument, so the required `mapping`
parameter is missing and `TypeError` is raised instead of
`{"must": [{"term": {"marks": 44}}]}`. -/
theorem must_should_build_raise_type_error :
    callBuilder 9 .tMust [.vstr "hinglish11", .vstr "student/_search"]
        [("query_types", .vdict [("term", .vdict [("marks", .vint 44)])])]
      = .error (.typeError "get_query() missing 1 required positional argument: mapping") ∧
    callBuilder 9 .tShould [.vstr "hinglish11", .vstr "student/_search"]
        [("query_types", .vdict [("term", .vdict [("marks", .vint 44)])])]
      = .error (.typeError "get_query() missing 1 required positional argument: mapping") :=
  ⟨rfl, rfl⟩

/-- Claim C4 (failing evaluation): `construct("bool")` does return the bool
builder, but its `build` always raises `TypeError` —
`super(FilterQueryConstructor, self)` is evaluated with a
`BoolQueryConstructor` instance, which is not a subclass of
`FilterQueryConstructor` — so no `{"bool": [...]}` mapping is ever built. -/
theorem bool_build_raises_super_type_error :
    QueryConstructor.construct "bool" = .ok .tBool ∧
    callBuilder 9 .tBool [.vstr "hinglish11", .vstr "student/_search"]
        [("query_types", .vdict [("term", .vdict [("marks", .vint 44)])])]
      = .error (.typeError "super(type, obj): obj must be an instance or subtype of type") :=
  ⟨rfl, rfl⟩

/-- Claim C6: every type tag outside the recognized set makes
`QueryConstructor.construct` fail with the unsupported-type assertion whose
message names the offending value, and no builder is returned. -/
theorem construct_unsupported_tag_fails (t : String)
    (h : t ∉ (["term", "match", "multi_match", "nested", "must", "should",
               "filter", "bool"] : List String)) :
    QueryConstructor.construct t
      = .error (.assertionError ("Unsupported type received as argument: " ++ t)) := by
  simp only [List.mem_cons, List.not_mem_nil, or_false, not_or] at h
  obtain ⟨h1, h2, h3, h4, h5, h6, h7, h8⟩ := h
  simp [QueryConstructor.construct, h1, h2, h3, h4, h5, h6, h8]

/-- Witness for C6 at the concrete unsupported tag `"range"`. -/
theorem construct_unsupported_tag_fails_witness :
    "range" ∉ (["term", "match", "multi_match", "nested", "must", "should",
                "filter", "bool"] : List String) ∧
    QueryConstructor.construct "range"
      = .error (.assertionError "Unsupported type received as argument: range") :=
  ⟨by decide, construct_unsupported_tag_fails "range" (by decide)⟩

/-- Claim C7: for the term and match builders, building with empty query
parameters (an empty keyword mapping) fails with the invalid-argument
assertion, and building with `marks=44` produces `{"term": {"marks": 44}}`
(respectively `{"match": {"marks": 44}}`). -/
theorem term_match_empty_fails_and_nonempty_builds :
    TermQueryConstructor.get_query (.vstr "hinglish11") (.vstr "student/_search") []
      = .error (.assertionError "Invalid values received as argument: \x7b\x7d") ∧
    MatchQueryConstructor.get_query (.vstr "hinglish11") (.vstr "student/_search") []
      = .error (.assertionError "Invalid values received as argument: \x7b\x7d") ∧
    TermQueryConstructor.get_query (.vstr "hinglish11") (.vstr "student/_search")
        [("marks", .vint 44)]
      = .ok (.vdict [("term", .vdict [("marks", .vint 44)])]) ∧
    MatchQueryConstructor.get_query (.vstr "hinglish11") (.vstr "student/_search")
        [("marks", .vint 44)]
      = .ok (.vdict [("match", .vdict [("marks", .vint 44)])]) :=
  ⟨rfl, rfl, rfl, rfl⟩

/-- Claim C3: the `path` argument accepted by the client's `nested` method is
never forwarded to the nested builder (only `index`, `mapping` and the
keyword values are), so the builder's `get_query` misses its required `path`
parameter and the call fails with `TypeError` before any nested clause is
produced.  The hypotheses record what Python's parameter binding guarantees
at the `nested` call: the `**values` dict cannot contain the names of the
bound parameters. -/
theorem nested_client_drops_path (n : Nat) (index mapping path : Val)
    (values : List (String × Val))
    (h1 : dget values "path" = none) (h2 : dget values "index" = none)
    (h3 : dget values "mapping" = none) :
    ElasticSearchQueryEngine.nested (n + 1) index mapping path values
      = .error (.typeError "get_query() missing 1 required positional argument: path") := by
  have h2' : containsKey values "index" = false := (containsKey_eq_false_iff _ _).mpr h2
  have h3' : containsKey values "mapping" = false := (containsKey_eq_false_iff _ _).mpr h3
  simp [ElasticSearchQueryEngine.nested, ElasticSearchQueryEngine._query,
        QueryConstructor.construct, callBuilder, bind3, bind2, h1, h2', h3']

/-- Witness for C3: the module's own live test line,
`es_engine.nested(index, mapping_url)` with no keyword values. -/
theorem nested_client_drops_path_witness :
    (dget [] "path" = none ∧ dget [] "index" = none ∧ dget [] "mapping" = none) ∧
    ElasticSearchQueryEngine.nested 9 (.vstr "hinglish11")
        (.vstr "student/_search?pretty=true") (.vstr "student") []
      = .error (.typeError "get_query() missing 1 required positional argument: path") :=
  ⟨⟨rfl, rfl, rfl⟩,
   nested_client_drops_path 8 (.vstr "hinglish11") (.vstr "student/_search?pretty=true")
     (.vstr "student") [] rfl rfl rfl⟩

/-- Claim C5 (counterexample): supplying `other_params` does change the query
clause.  With `marks=44` and `other_params={"size": 100}` the term clause is
`{"marks": 44, "other_params": {"size": 100}}`, while without `other_params`
it is `{"marks": 44}` — because the builder falls back to using the whole
keyword mapping as query parameters. -/
theorem term_other_params_changes_clause :
    ElasticSearchQueryEngine._query 9 "term" (.vstr "hinglish11") (.vstr "student/_search")
        [("marks", .vint 44), ("other_params", .vdict [("size", .vint 100)])]
      = .ok (.vdict [("query", .vdict [("term", .vdict
          [("marks", .vint 44), ("other_params", .vdict [("size", .vint 100)])])]),
          ("size", .vint 100)]) ∧
    ElasticSearchQueryEngine._query 9 "term" (.vstr "hinglish11") (.vstr "student/_search")
        [("marks", .vint 44)]
      = .ok (.vdict [("query", .vdict [("term", .vdict [("marks", .vint 44)])])]) ∧
    Val.vdict [("term", .vdict [("marks", .vint 44), ("other_params", .vdict [("size", .vint 100)])])]
      ≠ .vdict [("term", .vdict [("marks", .vint 44)])] := by
  refine ⟨rfl, rfl, ?_⟩
  simp

/-- Claim C5 (amended): the request body is `{"query": <clause>}` with every
key of `other_params` merged as a sibling at the top level, and when the
query parameters are passed under an explicit `query_params` key the clause
itself is the same with or without `other_params`. -/
theorem term_query_body_with_explicit_query_params (index mapping : Val)
    (qp op : List (String × Val)) :
    ElasticSearchQueryEngine._query 9 "term" index mapping
        [("query_params", .vdict qp), ("other_params", .vdict op)]
      = .ok (.vdict (dupdate [("query", .vdict [("term", .vdict (dfromPairs qp))])] op)) ∧
    ElasticSearchQueryEngine._query 9 "term" index mapping
        [("query_params", .vdict qp)]
      = .ok (.vdict [("query", .vdict [("term", .vdict (dfromPairs qp))])]) :=
  ⟨rfl, rfl⟩

/-- Claim C8: when the keyword arguments carry no `query_params` key, the term
and match builders use the entire keyword mapping as query parameters; in
particular a `additional_query_params` entry supplied this way appears
verbatim as a field inside the produced clause (and its contents are merged
on top).  The `Nodup` hypothesis records that a Python keyword dict has
distinct keys. -/
theorem leaf_builders_use_whole_kwargs (index mapping : Val)
    (values a : List (String × Val))
    (h1 : values ≠ []) (h2 : dget values "query_params" = none)
    (h3 : dget values "additional_query_params" = some (.vdict a))
    (h4 : (values.map Prod.fst).Nodup) (h5 : dget a "additional_query_params" = none) :
    TermQueryConstructor.get_query index mapping values
      = .ok (.vdict [("term", .vdict (dupdate (dfromPairs values) a))]) ∧
    MatchQueryConstructor.get_query index mapping values
      = .ok (.vdict [("match", .vdict (dupdate (dfromPairs values) a))]) ∧
    dget (dupdate (dfromPairs values) a) "additional_query_params" = some (.vdict a) := by
  refine ⟨?_, ?_, ?_⟩
  · cases values with
    | nil => exact absurd rfl h1
    | cons p rest =>
      simp [TermQueryConstructor.get_query, h2, h3, itemsOf, asMapping]
  · cases values with
    | nil => exact absurd rfl h1
    | cons p rest =>
      simp [MatchQueryConstructor.get_query, h2, h3, itemsOf, asMapping]
  · rw [dget_dupdate_none _ _ _ h5]
    exact dget_dfromPairs values _ _ h3 h4

/-- Witness for C8: `marks=44, additional_query_params={"boost": 2}` with no
`query_params` key — the whole mapping becomes the term/match clause, and the
`additional_query_params` entry survives inside it. -/
theorem leaf_builders_use_whole_kwargs_witness :
    ([("marks", Val.vint 44), ("additional_query_params", Val.vdict [("boost", Val.vint 2)])] ≠
        ([] : List (String × Val)) ∧
     dget [("marks", Val.vint 44), ("additional_query_params", Val.vdict [("boost", Val.vint 2)])]
        "query_params" = none ∧
     dget [("marks", Val.vint 44), ("additional_query_params", Val.vdict [("boost", Val.vint 2)])]
        "additional_query_params" = some (.vdict [("boost", Val.vint 2)]) ∧
     (([("marks", Val.vint 44), ("additional_query_params", Val.vdict [("boost", Val.vint 2)])].map
        Prod.fst).Nodup) ∧
     dget [("boost", Val.vint 2)] "additional_query_params" = none) ∧
    (TermQueryConstructor.get_query (.vstr "hinglish11") (.vstr "student/_search")
        [("marks", .vint 44), ("additional_query_params", .vdict [("boost", .vint 2)])]
      = .ok (.vdict [("term", .vdict (dupdate (dfromPairs
          [("marks", .vint 44), ("additional_query_params", .vdict [("boost", .vint 2)])])
          [("boost", .vint 2)]))]) ∧
     MatchQueryConstructor.get_query (.vstr "hinglish11") (.vstr "student/_search")
        [("marks", .vint 44), ("additional_query_params", .vdict [("boost", .vint 2)])]
      = .ok (.vdict [("match", .vdict (dupdate (dfromPairs
          [("marks", .vint 44), ("additional_query_params", .vdict [("boost", .vint 2)])])
          [("boost", .vint 2)]))]) ∧
     dget (dupdate (dfromPairs
          [("marks", .vint 44), ("additional_query_params", .vdict [("boost", .vint 2)])])
          [("boost", .vint 2)]) "additional_query_params"
       = some (.vdict [("boost", .vint 2)])) :=
  ⟨⟨by simp, rfl, rfl, by simp, rfl⟩,
   leaf_builders_use_whole_kwargs (.vstr "hinglish11") (.vstr "student/_search")
     [("marks", .vint 44), ("additional_query_params", .vdict [("boost", .vint 2)])]
     [("boost", .vint 2)] (by simp) rfl rfl (by simp) rfl⟩

/-- Claim C9: for a non-empty path and non-empty query parameters, the nested
builder rewrites every field `f` to `"<path>.<f>"` under the `"query"`
sub-mapping of the `"nested"` clause; in particular
`("student", {"marks": 44})` yields
`{"nested": {"path": "student", "query": {"student.marks": 44}}}`. -/
theorem nested_rewrites_fields_with_path (index mapping : Val) (p : String)
    (qp : List (String × Val)) (hp : p ≠ "") (hq : qp ≠ []) :
    NestedQueryConstructor.get_query index mapping (.vstr p)
        [("query_params", .vdict qp)]
      = .ok (.vdict [("nested", .vdict
          [("path", .vstr p),
           ("query", .vdict (dfromPairs (qp.map (fun fv => (p ++ "." ++ fv.1, fv.2)))))])]) ∧
    NestedQueryConstructor.get_query index mapping (.vstr "student") [("marks", .vint 44)]
      = .ok (.vdict [("nested", .vdict [("path", .vstr "student"),
          ("query", .vdict [("student.marks", .vint 44)])])]) := by
  constructor
  · simp [NestedQueryConstructor.get_query, truthy, hp, dget, itemsOf, asMapping,
          pyStr, dupdate]
  · rfl

/-- Witness for C9 at path `"student"` and query parameters `{"marks": 44}`. -/
theorem nested_rewrites_fields_with_path_witness :
    ("student" ≠ "" ∧ ([("marks", Val.vint 44)] : List (String × Val)) ≠ []) ∧
    (NestedQueryConstructor.get_query (.vstr "hinglish11") (.vstr "student/_search")
        (.vstr "student") [("query_params", .vdict [("marks", .vint 44)])]
      = .ok (.vdict [("nested", .vdict
          [("path", .vstr "student"),
           ("query", .vdict (dfromPairs ([("marks", Val.vint 44)].map
             (fun fv => ("student" ++ "." ++ fv.1, fv.2)))))])]) ∧
     NestedQueryConstructor.get_query (.vstr "hinglish11") (.vstr "student/_search")
        (.vstr "student") [("marks", .vint 44)]
      = .ok (.vdict [("nested", .vdict [("path", .vstr "student"),
          ("query", .vdict [("student.marks", .vint 44)])])])) :=
  ⟨⟨by decide, by simp⟩,
   nested_rewrites_fields_with_path (.vstr "hinglish11") (.vstr "student/_search")
     "student" [("marks", .vint 44)] (by decide) (by simp)⟩

/-- Claim C10: the multi-match builder fails on an empty fields sequence, and
for a non-empty fields sequence produces
`{"multi_match": merge({"query": q, "fields": fields, "type": matchType},
additionalQueryParams)}`, with the match type defaulting to
`"cross_fields"` when not supplied (second conjunct: the real call path
through `callBuilder` with no `q_type` keyword). -/
theorem multi_match_build_contract (index mapping q t : Val) (fs : List Val)
    (a : List (String × Val)) (hf : fs ≠ []) :
    MultiMatchQueryConstructor.get_query index mapping q (.vlist fs) t
        [("additional_query_params", .vdict a)]
      = .ok (.vdict [("multi_match",
          .vdict (dupdate [("query", q), ("fields", .vlist fs), ("type", t)] a))]) ∧
    callBuilder 9 .tMultiMatch [index, mapping]
        [("query", q), ("fields", .vlist fs)]
      = .ok (.vdict [("multi_match", .vdict
          [("query", q), ("fields", .vlist fs), ("type", .vstr "cross_fields")])]) ∧
    MultiMatchQueryConstructor.get_query index mapping (.vstr "hello") (.vlist [])
        (.vstr "cross_fields") []
      = .error (.assertionError "Invalid fields received as argument: []") := by
  refine ⟨?_, ?_, rfl⟩
  · cases fs with
    | nil => exact absurd rfl hf
    | cons f fs =>
      simp [MultiMatchQueryConstructor.get_query, truthy, dget, asMapping]
  · cases fs with
    | nil => exact absurd rfl hf
    | cons f fs =>
      simp [callBuilder, bindMultiMatch, bind2, containsKey, dget, dremove,
            MultiMatchQueryConstructor.get_query, truthy, asMapping, dupdate]

/-- Witness for C10 at `query="Mangu Singh"`, `fields=["name^2", "school^1.2"]`. -/
theorem multi_match_build_contract_witness :
    ([Val.vstr "name^2", Val.vstr "school^1.2"] ≠ ([] : List Val)) ∧
    (MultiMatchQueryConstructor.get_query (.vstr "hinglish11") (.vstr "student/_search")
        (.vstr "Mangu Singh") (.vlist [.vstr "name^2", .vstr "school^1.2"])
        (.vstr "cross_fields") [("additional_query_params", .vdict [])]
      = .ok (.vdict [("multi_match",
          .vdict (dupdate [("query", Val.vstr "Mangu Singh"),
            ("fields", .vlist [.vstr "name^2", .vstr "school^1.2"]),
            ("type", Val.vstr "cross_fields")] []))]) ∧
     callBuilder 9 .tMultiMatch [.vstr "hinglish11", .vstr "student/_search"]
        [("query", .vstr "Mangu Singh"),
         ("fields", .vlist [.vstr "name^2", .vstr "school^1.2"])]
      = .ok (.vdict [("multi_match", .vdict
          [("query", .vstr "Mangu Singh"),
           ("fields", .vlist [.vstr "name^2", .vstr "school^1.2"]),
           ("type", .vstr "cross_fields")])]) ∧
     MultiMatchQueryConstructor.get_query (.vstr "hinglish11") (.vstr "student/_search")
        (.vstr "hello") (.vlist []) (.vstr "cross_fields") []
      = .error (.assertionError "Invalid fields received as argument: []")) :=
  ⟨by simp,
   multi_match_build_contract (.vstr "hinglish11") (.vstr "student/_search")
     (.vstr "Mangu Singh") (.vstr "cross_fields") [.vstr "name^2", .vstr "school^1.2"]
     [] (by simp)⟩
